import Mathlib

/-!
The serve command of cloud-agent: its watch supervisor and the cache it shares.

A shallow embedding of `cmd/serve/serve.go` (`run`, `startWatcher`) together
with the cache of `pkg/agent` that the supervisor and the gRPC server share.

* Go's `error` is `Option String` (`none` is `nil`).
* The cache is a mutable object shared by reference; here it is a value that is
  threaded through every operation (`World.cache`).
* Everything `serve.go` does to the outside (logger calls, calls of the
  watcher, `cache.Clean()`) is recorded, in order, in `World.trace`.
-/

set_option autoImplicit false

namespace CloudAgent

/-! ## The cache (`pkg/agent`) -/

/-- Modelled from the spec: the Registration of `pkg/agent` (the package is not
among the sources). "Holds `value: optional T` (latest known inventory
snapshot, or absent if never populated)". -/
structure Registration (T : Type) where
  value : Option T
deriving DecidableEq

/-- Modelled from the spec: the RegistrationHandle that `Register` and `Get`
of `pkg/agent` return (the package is not among the sources). A handle refers
to one Registration; it stays valid after `Clean`, so it is the position of
the Registration among all those the cache ever created. -/
structure RegistrationHandle where
  slot : Nat
deriving DecidableEq, Repr

/-- Modelled from the spec: the Cache of `pkg/agent` (the package is not among
the sources): a "mapping from source name → Registration". `store` holds every
Registration created so far (a Registration removed by `Clean` is orphaned, not
destroyed: handles to it remain valid), `registry` is the mapping. -/
structure Cache (T : Type) where
  store : List (Registration T)
  registry : List (String × RegistrationHandle)
deriving DecidableEq

/-- Modelled from the spec: `agent.NewCache` of `pkg/agent` (not among the
sources): a cache without registrations. -/
def NewCache {T : Type} : Cache T :=
  { store := [], registry := [] }

/-- Modelled from the spec: `Cache.Get` of `pkg/agent` (not among the
sources). "`Get(name) -> (RegistrationHandle, found: bool)`: non-mutating
lookup"; `none` is "not found". -/
def Cache.Get {T : Type} (c : Cache T) (name : String) : Option RegistrationHandle :=
  c.registry.lookup name

/-- Modelled from the spec: `Cache.Register` of `pkg/agent` (not among the
sources). "Returns a handle bound to `name`. If no Registration exists for
`name`, creates one with an absent value"; each call returns "a handle to the
same underlying Registration for that name". -/
def Cache.Register {T : Type} (c : Cache T) (name : String) : Cache T × RegistrationHandle :=
  match c.Get name with
  | some r => (c, r)
  | none =>
    let r : RegistrationHandle := { slot := c.store.length }
    ({ store := c.store ++ [{ value := none }], registry := (name, r) :: c.registry }, r)

/-- Modelled from the spec: `Cache.Clean` of `pkg/agent` (not among the
sources). "`Clean()`: removes all registrations", while a handle obtained
before "remains a valid reference to its own (now-orphaned) Registration". -/
def Cache.Clean {T : Type} (c : Cache T) : Cache T :=
  { c with registry := [] }

/-- Modelled from the spec: `Set` of a registration handle of `pkg/agent` (not
among the sources). "`Set(value: T)`: replaces the stored value". -/
def RegistrationHandle.Set {T : Type} (r : RegistrationHandle) (v : T) (c : Cache T) : Cache T :=
  { c with store := c.store.set r.slot { value := some v } }

/-- Modelled from the spec: `Get` of a registration handle of `pkg/agent` (not
among the sources). "`Get() -> optional T`: returns the current value or
absence". -/
def RegistrationHandle.Get {T : Type} (r : RegistrationHandle) (c : Cache T) : Option T :=
  (c.store.get? r.slot).bind Registration.value

/-- Every handle of the mapping refers to a Registration the cache created. -/
def Cache.WF {T : Type} (c : Cache T) : Prop :=
  ∀ p ∈ c.registry, p.2.slot < c.store.length

/-! ## The serve command (`cmd/serve/serve.go`) -/

/-- The `context.Context` of the options, reduced to what a loop could ask of
it: whether it has been cancelled. -/
structure Context where
  cancelled : Bool
deriving DecidableEq, Repr

/-- The fields of the serve command's `options` that `serve.go` reads. The
`Logger` field is the log of `World.trace`. -/
structure Options where
  Context : Context
  configPath : String
  socketNetwork : String
  socketAddress : String
deriving DecidableEq, Repr

/-- A call of the logger `o.Logger`. -/
inductive LogEntry where
  | info (msg : String)
  | debug (msg : String)
  | warn (err : String)
deriving DecidableEq, Repr

/-- The `watcher.Options` literal that `startWatcher` builds (lines 59-64);
`Cache` is the state of the shared cache when `Start` is called. -/
structure WatcherOptions (T : Type) where
  Context : Context
  Cache : Cache T
  ConfigPath : String
deriving DecidableEq

/-- One `watcher.NewWatcher().Start(...)` call that returns (`internal/watcher`
is not among the sources, so its behaviour is a parameter): from the options it
is given it leaves the shared cache in some state and returns an error or
`nil`. -/
abbrev Watcher (T : Type) := WatcherOptions T → Cache T × Option String

/-- What `startWatcher` and the supervisor loop do, in order. -/
inductive Event (T : Type) where
  | startCalled (opts : WatcherOptions T)
  | startReturned (err : Option String)
  | log (entry : LogEntry)
  | clean
deriving DecidableEq

/-- The event is a call of `Start`. -/
def Event.isStartCalled {T : Type} : Event T → Bool
  | .startCalled _ => true
  | _ => false

/-- The event is a return of `Start`. -/
def Event.isStartReturned {T : Type} : Event T → Bool
  | .startReturned _ => true
  | _ => false

/-- The event is a return of `Start` with `nil`. -/
def Event.isNilReturn {T : Type} : Event T → Bool
  | .startReturned none => true
  | _ => false

/-- The event is a call of the logger. -/
def Event.isLog {T : Type} : Event T → Bool
  | .log _ => true
  | _ => false

/-- The event is a `Logger.Warn` call. -/
def Event.isWarn {T : Type} : Event T → Bool
  | .log (.warn _) => true
  | _ => false

/-- The event is a `cache.Clean()` call. -/
def Event.isClean {T : Type} : Event T → Bool
  | .clean => true
  | _ => false

/-- The shared cache and everything done so far, oldest first. -/
structure World (T : Type) where
  cache : Cache T
  trace : List (Event T)

/-- Record an event. -/
def World.emit {T : Type} (s : World T) (e : Event T) : World T :=
  { s with trace := s.trace ++ [e] }

/-- The argument of `Start` (lines 59-64). -/
def watcherOptions {T : Type} (o : Options) (cache : Cache T) : WatcherOptions T :=
  { Context := o.Context, Cache := cache, ConfigPath := o.configPath }

/-- The first half of `startWatcher`: `Start` has been called and has not
returned yet. -/
def beginStart {T : Type} (o : Options) (s : World T) : World T :=
  s.emit (.startCalled (watcherOptions o s.cache))

/-- The function `startWatcher` (lines 58-72), for a `Start` call `w` that returns. -/
def startWatcher {T : Type} (w : Watcher T) (o : Options) (s : World T) : World T :=
  let s1 := beginStart o s
  let r := w (watcherOptions o s.cache)
  let s2 := ({ s1 with cache := r.1 } : World T).emit (.startReturned r.2)
  let s3 :=
    match r.2 with
    | some err => s2.emit (.log (.warn err))
    | none => s2
  let s4 := s3.emit (.log (.info "configuration midyfication detected"))
  let s5 := s4.emit (.log (.info "cleaning up cache"))
  ({ s5 with cache := s5.cache.Clean } : World T).emit .clean

/-- The goroutine of `run` (lines 35-39), `for { startWatcher(o, gardenerCache) }`,
observed when the `Start` calls `ws` have returned, one after the other, and
the next call is in flight. The loop has no exit; a longer list observes it
later. -/
def supervisor {T : Type} (o : Options) : List (Watcher T) → World T → World T
  | [], s => beginStart o s
  | w :: ws, s => supervisor o ws (startWatcher w o s)

/-- The goroutine as `run` starts it: on the cache `agent.NewCache` has just
returned (line 34), with nothing done yet. -/
def runSupervisor {T : Type} (o : Options) (ws : List (Watcher T)) : World T :=
  supervisor o ws { cache := NewCache, trace := [] }

/-- The `net.Listener` that `agent.NewSocket` returns. -/
structure Listener where
  network : String
  address : String
deriving DecidableEq, Repr

/-- The identity of a cache object: `run` hands one and the same reference to
the goroutine and to the server. -/
abbrev CacheRef := Nat

/-- The collaborators of `run` that are not among the sources, as parameters:
`agent.NewSocket` and the `Serve` method of the gRPC server (its result once it
returns). -/
structure RunEnv where
  NewSocket : String → String → Except String Listener
  Serve : Listener → Option String

/-- What `run` does, in order. -/
inductive RunEvent where
  | log (entry : LogEntry)
  | newCache (cache : CacheRef)
  | goSupervisor (o : Options) (cache : CacheRef)
  | newSocket (network address : String)
  | newGrpcServer
  | newAgentServer (GardenerCache : CacheRef)
  | registerAgentServer
  | serve (lis : Listener)
deriving DecidableEq, Repr

/-- The function `run` (lines 31-56): the returned error and what was done. `gardenerCache`
is the identity of the object `agent.NewCache` returns at line 34. -/
def run (env : RunEnv) (o : Options) (gardenerCache : CacheRef) : Option String × List RunEvent :=
  let t0 : List RunEvent :=
    [.log (.info "starting gardeners agent"),
     .newCache gardenerCache,
     .goSupervisor o gardenerCache,
     .log (.debug "configuring grpc server"),
     .newSocket o.socketNetwork o.socketAddress]
  match env.NewSocket o.socketNetwork o.socketAddress with
  | .error err => (some err, t0)
  | .ok lis =>
    (env.Serve lis,
     t0 ++ [.newGrpcServer,
            .newAgentServer gardenerCache,
            .registerAgentServer,
            .log (.info "starting grpc server"),
            .serve lis])

/-! ## The query server (`pkg/agent`) -/

/-- Modelled from the spec: an inventory entry (the payload types are not
among the sources): "each entry carrying at least a creator/owner identity and
an age/creation timestamp". -/
structure InventoryEntry where
  name : String
  owner : String
  age : Nat
deriving DecidableEq, Repr

/-- Modelled from the spec: the two non-fatal answers of the query server
(`pkg/agent` is not among the sources): "source unknown" and "not yet
populated". -/
inductive QueryError where
  | unknownSource
  | notYetPopulated
deriving DecidableEq, Repr

/-- Modelled from the spec: `Query(sourceName, filter)` of the query server
(`pkg/agent` is not among the sources). It "looks up `sourceName` in the
Cache"; an unknown name and an absent value are told apart from a populated
list; "if present, applies `filter` (keep only entries whose owner identity
matches a requested value) to a snapshot obtained via a single `Get()`". The
owner filter is optional. -/
def Query (c : Cache (List InventoryEntry)) (sourceName : String)
    (ownerFilter : Option String) : Except QueryError (List InventoryEntry) :=
  match c.Get sourceName with
  | none => .error .unknownSource
  | some r =>
    match r.Get c with
    | none => .error .notYetPopulated
    | some items =>
      match ownerFilter with
      | none => .ok items
      | some x => .ok (items.filter (fun e => e.owner == x))

/-! ## Concrete inputs -/

/-- A `Start` call that leaves the cache as it found it and returns an error. -/
def failingWatcher : Watcher Nat :=
  fun opts => (opts.Cache, some "watch failed")

/-- A `Start` call that registers "prod", sets its value to 7 and returns
`nil` (a configuration change was seen). -/
def reloadingWatcher : Watcher Nat :=
  fun opts =>
    let p := opts.Cache.Register "prod"
    (p.2.Set 7 p.1, none)

/-- A cache in which "prod" is registered with the value 7. -/
def prodCache : Cache Nat :=
  let p := (NewCache : Cache Nat).Register "prod"
  p.2.Set 7 p.1

/-- Options whose Context is live. -/
def liveOptions : Options :=
  { Context := { cancelled := false }, configPath := "config.yaml",
    socketNetwork := "unix", socketAddress := "/tmp/agent.sock" }

/-- Options whose Context has been cancelled. -/
def cancelledOptions : Options :=
  { liveOptions with Context := { cancelled := true } }

/-- The scenario of the spec: "prod" holds three entries owned by "a", "a"
and "b"; "empty-source" is registered and was never set. -/
def scenarioCache : Cache (List InventoryEntry) :=
  let p := (NewCache : Cache (List InventoryEntry)).Register "prod"
  let c := p.2.Set [{ name := "s1", owner := "a", age := 1 },
                    { name := "s2", owner := "a", age := 2 },
                    { name := "s3", owner := "b", age := 3 }] p.1
  (c.Register "empty-source").1

/-- A socket that cannot be created. -/
def brokenSocketEnv : RunEnv :=
  { NewSocket := fun _ _ => .error "listen failed", Serve := fun _ => none }

/-- A socket that is created and a server whose `Serve` returns an error. -/
def servingEnv : RunEnv :=
  { NewSocket := fun n a => .ok { network := n, address := a },
    Serve := fun _ => some "server stopped" }

end CloudAgent

namespace CloudAgent

/-! ## The cache: lookups and well-formedness -/

section CacheLemmas

variable {T : Type}

@[simp]
theorem Cache.get_newCache (name : String) : (NewCache : Cache T).Get name = none := rfl

@[simp]
theorem Cache.get_clean (c : Cache T) (name : String) : c.Clean.Get name = none := rfl

@[simp]
theorem Cache.store_clean (c : Cache T) : c.Clean.store = c.store := rfl

theorem Cache.wf_newCache : (NewCache : Cache T).WF := by
  intro p hp
  cases hp

theorem Cache.wf_clean (c : Cache T) : c.Clean.WF := by
  intro p hp
  cases hp

theorem Cache.get_mem {c : Cache T} {name : String} {r : RegistrationHandle}
    (h : c.Get name = some r) : (name, r) ∈ c.registry := by
  unfold Cache.Get at h
  generalize c.registry = l at h ⊢
  induction l with
  | nil => simp [List.lookup] at h
  | cons p ps ih =>
    obtain ⟨k, v⟩ := p
    by_cases hk : name = k
    · subst hk
      simp [List.lookup] at h
      simp [h]
    · have hne : (name == k) = false := by simpa using hk
      simp only [List.lookup, hne] at h
      exact List.mem_cons_of_mem _ (ih h)

theorem Cache.register_of_get {c : Cache T} {name : String} {r : RegistrationHandle}
    (h : c.Get name = some r) : c.Register name = (c, r) := by
  simp [Cache.Register, h]

theorem Cache.wf_register (c : Cache T) (name : String) (h : c.WF) :
    (c.Register name).1.WF := by
  unfold Cache.Register
  cases hg : c.Get name with
  | some r => simpa using h
  | none =>
    intro p hp
    simp only [List.mem_cons] at hp
    rcases hp with hp | hp
    · subst hp
      simp
    · have := h p hp
      simp only [List.length_append, List.length_singleton]
      omega

theorem Cache.wf_set (c : Cache T) (r : RegistrationHandle) (v : T) (h : c.WF) :
    (r.Set v c).WF := by
  intro p hp
  simpa [RegistrationHandle.Set] using h p hp

@[simp]
theorem Cache.get_set (c : Cache T) (r : RegistrationHandle) (v : T) (name : String) :
    (r.Set v c).Get name = c.Get name := rfl

theorem RegistrationHandle.get_set_self (c : Cache T) (r : RegistrationHandle) (v : T)
    (h : r.slot < c.store.length) : r.Get (r.Set v c) = some v := by
  simp [RegistrationHandle.Get, RegistrationHandle.Set, List.getElem?_set, h]

end CacheLemmas

end CloudAgent

namespace CloudAgent

section SupervisorLemmas

variable {T : Type}

theorem startWatcher_trace (w : Watcher T) (o : Options) (s : World T) :
    (startWatcher w o s).trace =
      s.trace ++
        (Event.startCalled (watcherOptions o s.cache) ::
          Event.startReturned (w (watcherOptions o s.cache)).2 ::
            ((w (watcherOptions o s.cache)).2.map fun err => Event.log (.warn err)).toList ++
          [Event.log (.info "configuration midyfication detected"),
           Event.log (.info "cleaning up cache"),
           Event.clean]) := by
  unfold startWatcher
  cases h : (w (watcherOptions o s.cache)).2 <;>
    simp [World.emit, beginStart, h]

theorem startWatcher_cache (w : Watcher T) (o : Options) (s : World T) :
    (startWatcher w o s).cache = (w (watcherOptions o s.cache)).1.Clean := by
  unfold startWatcher
  cases h : (w (watcherOptions o s.cache)).2 <;>
    simp [World.emit, beginStart, h]

theorem beginStart_trace (o : Options) (s : World T) :
    (beginStart o s).trace = s.trace ++ [Event.startCalled (watcherOptions o s.cache)] := rfl

theorem beginStart_cache (o : Options) (s : World T) : (beginStart o s).cache = s.cache := rfl

theorem supervisor_count_startCalled (o : Options) (ws : List (Watcher T)) (s : World T) :
    (supervisor o ws s).trace.countP Event.isStartCalled =
      s.trace.countP Event.isStartCalled + ws.length + 1 := by
  induction ws generalizing s with
  | nil => simp [supervisor, beginStart_trace, Event.isStartCalled]
  | cons w ws ih =>
    rw [supervisor, ih, startWatcher_trace]
    cases (w (watcherOptions o s.cache)).2 <;>
      simp [List.countP_cons, List.countP_append, Event.isStartCalled] <;> omega

theorem supervisor_count_startReturned (o : Options) (ws : List (Watcher T)) (s : World T) :
    (supervisor o ws s).trace.countP Event.isStartReturned =
      s.trace.countP Event.isStartReturned + ws.length := by
  induction ws generalizing s with
  | nil => simp [supervisor, beginStart_trace, Event.isStartReturned]
  | cons w ws ih =>
    rw [supervisor, ih, startWatcher_trace]
    cases (w (watcherOptions o s.cache)).2 <;>
      simp [List.countP_cons, List.countP_append, Event.isStartReturned] <;> omega

theorem supervisor_count_warn (o : Options) (ws : List (Watcher T)) (s : World T) :
    (supervisor o ws s).trace.countP Event.isWarn +
        (supervisor o ws s).trace.countP Event.isNilReturn =
      s.trace.countP Event.isWarn + s.trace.countP Event.isNilReturn + ws.length := by
  induction ws generalizing s with
  | nil => simp [supervisor, beginStart_trace, Event.isWarn, Event.isNilReturn]
  | cons w ws ih =>
    rw [supervisor, ih, startWatcher_trace]
    cases (w (watcherOptions o s.cache)).2 <;>
      simp [List.countP_cons, List.countP_append, Event.isWarn, Event.isNilReturn] <;> omega

theorem supervisor_last (o : Options) (ws : List (Watcher T)) (s : World T) :
    (supervisor o ws s).trace.getLast? =
      some (Event.startCalled (watcherOptions o (supervisor o ws s).cache)) := by
  induction ws generalizing s with
  | nil => simp [supervisor, beginStart_trace, beginStart_cache]
  | cons w ws ih => rw [supervisor, ih]

theorem supervisor_startCalled_mem (o : Options) (ws : List (Watcher T)) (s : World T)
    (opts : WatcherOptions T) (h : Event.startCalled opts ∈ (supervisor o ws s).trace) :
    Event.startCalled opts ∈ s.trace ∨
      (opts.Context = o.Context ∧ opts.ConfigPath = o.configPath ∧
        (opts.Cache = s.cache ∨ opts.Cache.registry = [])) := by
  induction ws generalizing s with
  | nil =>
    simp only [supervisor, beginStart_trace, List.mem_append, List.mem_singleton] at h
    rcases h with h | h
    · exact Or.inl h
    · cases h
      exact Or.inr ⟨rfl, rfl, Or.inl rfl⟩
  | cons w ws ih =>
    rw [supervisor] at h
    rcases ih _ h with h1 | ⟨hc, hp, h2⟩
    · rw [startWatcher_trace] at h1
      cases hr : (w (watcherOptions o s.cache)).2 <;>
        simp [hr] at h1
      all_goals
        rcases h1 with h1 | h1
        · exact Or.inl h1
        · subst h1
          exact Or.inr ⟨rfl, rfl, Or.inl rfl⟩
    · refine Or.inr ⟨hc, hp, Or.inr ?_⟩
      rw [startWatcher_cache] at h2
      rcases h2 with h2 | h2
      · rw [h2]; rfl
      · exact h2

end SupervisorLemmas

end CloudAgent

namespace CloudAgent

/-! ## The claims -/

section Claims

variable {T : Type}

/-- C1: whatever the cache holds and whatever `Start` returns (`nil` or an
error), `startWatcher` calls `cache.Clean()` exactly once, as its last action
and after `Start` has returned (only logger calls lie between the return and
the clean), so that when `startWatcher` returns `Get(name)` reports "not found"
for every name, the names registered before the call included. -/
theorem startWatcher_cleans_once_after_start (w : Watcher T) (o : Options) (s : World T) :
    (∃ mid : List (Event T),
        (startWatcher w o s).trace =
          s.trace ++
            (Event.startCalled (watcherOptions o s.cache) ::
              Event.startReturned (w (watcherOptions o s.cache)).2 :: mid ++ [Event.clean]) ∧
        ∀ e ∈ mid, e.isLog = true) ∧
      (startWatcher w o s).trace.countP Event.isClean = s.trace.countP Event.isClean + 1 ∧
      (startWatcher w o s).cache = (w (watcherOptions o s.cache)).1.Clean ∧
      ∀ name, (startWatcher w o s).cache.Get name = none := by
  refine ⟨⟨((w (watcherOptions o s.cache)).2.map fun err => Event.log (.warn err)).toList ++
      [Event.log (.info "configuration midyfication detected"),
       Event.log (.info "cleaning up cache")], ?_, ?_⟩, ?_, startWatcher_cache w o s, ?_⟩
  · rw [startWatcher_trace]
    simp
  · intro e he
    cases hr : (w (watcherOptions o s.cache)).2 <;> simp [hr] at he <;>
      rcases he with he | he <;>
        first
          | (subst he; rfl)
          | (rcases he with he | he <;> subst he <;> rfl)
  · rw [startWatcher_trace]
    cases (w (watcherOptions o s.cache)).2 <;>
      simp [List.countP_cons, List.countP_append, Event.isClean]
  · intro name
    rw [startWatcher_cache]
    rfl

/-- C2: the supervisor loop never gives up. Observe the loop from its start,
when the `Start` calls of `ws` have returned and every one of them returned an
error: `Start` has then been invoked `ws.length + 1` times (the last invocation
is in flight, it is the latest action of the loop), every one of the
`ws.length` errors was logged as one warning, and that is all that happened to
it: `startWatcher` has no result through which an error could leave it. -/
theorem supervisor_never_gives_up (o : Options) (ws : List (Watcher T)) (c : Cache T)
    (hfail : ∀ err, Event.startReturned err ∈
        (supervisor o ws { cache := c, trace := [] }).trace → err ≠ none) :
    (supervisor o ws { cache := c, trace := [] }).trace.countP Event.isStartCalled =
        ws.length + 1 ∧
      (supervisor o ws { cache := c, trace := [] }).trace.countP Event.isStartReturned =
        ws.length ∧
      (supervisor o ws { cache := c, trace := [] }).trace.countP Event.isWarn = ws.length ∧
      (supervisor o ws { cache := c, trace := [] }).trace.getLast? =
        some (Event.startCalled
          (watcherOptions o (supervisor o ws { cache := c, trace := [] }).cache)) := by
  refine ⟨?_, ?_, ?_, supervisor_last o ws _⟩
  · simpa using supervisor_count_startCalled o ws { cache := c, trace := [] }
  · simpa using supervisor_count_startReturned o ws { cache := c, trace := [] }
  · have h := supervisor_count_warn o ws { cache := c, trace := [] }
    have h0 : (supervisor o ws { cache := c, trace := [] }).trace.countP Event.isNilReturn = 0 := by
      rw [List.countP_eq_zero]
      intro e he hn
      cases e with
      | startReturned err =>
        cases err with
        | none => exact hfail none he rfl
        | some _ => simp [Event.isNilReturn] at hn
      | _ => simp [Event.isNilReturn] at hn
    simpa [h0] using h

/-- Witness of C2: two failing `Start` calls on a cache that holds "prod". -/
theorem supervisor_never_gives_up_witness :
    (supervisor liveOptions [failingWatcher, failingWatcher]
        { cache := prodCache, trace := [] }).trace.countP Event.isStartCalled = 2 + 1 ∧
      (supervisor liveOptions [failingWatcher, failingWatcher]
        { cache := prodCache, trace := [] }).trace.countP Event.isWarn = 2 :=
  have h := supervisor_never_gives_up liveOptions [failingWatcher, failingWatcher] prodCache
    (by
      intro err herr
      have : err = some "watch failed" := by
        simpa [supervisor, startWatcher, beginStart, World.emit, failingWatcher] using herr
      simp [this])
  ⟨h.1, h.2.2.1⟩

/-- C3, the claim as stated fails: "prod" is registered with the value 7, `Start`
returns an error without touching the cache, and when `startWatcher` returns
"prod" is not found any more. -/
theorem startWatcher_error_keeps_cache_counterexample :
    (failingWatcher (watcherOptions liveOptions prodCache)).2 = some "watch failed" ∧
      prodCache.Get "prod" = some { slot := 0 } ∧
      ({ slot := 0 } : RegistrationHandle).Get prodCache = some 7 ∧
      (startWatcher failingWatcher liveOptions { cache := prodCache, trace := [] }).cache.Get
        "prod" = none := by
  decide

/-- C3, amended: when `Start` ends with an error, `startWatcher` logs the error
as a warning and then cleans the cache exactly as on a `nil` return: when it
returns no name is found by `Get`, whatever was registered before; the
registrations themselves are orphaned, not altered, so a value stays readable
only through a handle obtained earlier. -/
theorem startWatcher_error_still_cleans (w : Watcher T) (o : Options) (s : World T)
    (err : String) (herr : (w (watcherOptions o s.cache)).2 = some err) :
    Event.log (.warn err) ∈ (startWatcher w o s).trace ∧
      (startWatcher w o s).trace.getLast? = some Event.clean ∧
      (∀ name, (startWatcher w o s).cache.Get name = none) ∧
      ∀ r : RegistrationHandle,
        r.Get (startWatcher w o s).cache = r.Get (w (watcherOptions o s.cache)).1 := by
  refine ⟨?_, ?_, ?_, ?_⟩
  · rw [startWatcher_trace, herr]
    simp
  · rw [startWatcher_trace, herr]
    simp
  · intro name
    rw [startWatcher_cache]
    rfl
  · intro r
    rw [startWatcher_cache]
    rfl

/-- Witness of C3 amended: the failing `Start` call on the cache that holds
"prod". -/
theorem startWatcher_error_still_cleans_witness :
    Event.log (.warn "watch failed") ∈
        (startWatcher failingWatcher liveOptions { cache := prodCache, trace := [] }).trace ∧
      (startWatcher failingWatcher liveOptions { cache := prodCache, trace := [] }).cache.Get
        "prod" = none ∧
      ({ slot := 0 } : RegistrationHandle).Get
        (startWatcher failingWatcher liveOptions { cache := prodCache, trace := [] }).cache =
          some 7 :=
  have h := startWatcher_error_still_cleans failingWatcher liveOptions
    { cache := prodCache, trace := [] } "watch failed" rfl
  ⟨h.1, h.2.2.1 "prod", (h.2.2.2 { slot := 0 }).trans (by decide)⟩

/-- C4, the claim as stated fails: the Context is cancelled, the `Start` call in
flight returns, and the loop begins a second `Start` invocation. -/
theorem supervisor_cancelled_stops_counterexample :
    cancelledOptions.Context.cancelled = true ∧
      (supervisor cancelledOptions [failingWatcher]
          { cache := (NewCache : Cache Nat), trace := [] }).trace =
        [Event.startCalled (watcherOptions cancelledOptions NewCache),
         Event.startReturned (some "watch failed"),
         Event.log (.warn "watch failed"),
         Event.log (.info "configuration midyfication detected"),
         Event.log (.info "cleaning up cache"),
         Event.clean,
         Event.startCalled (watcherOptions cancelledOptions NewCache)] ∧
      (supervisor cancelledOptions [failingWatcher]
          { cache := (NewCache : Cache Nat), trace := [] }).trace.countP
        Event.isStartCalled = 2 := by
  decide

/-- C4, amended: the supervisor loop has no cancellation of its own. With the
Context cancelled, after every return of `Start` the loop begins another
invocation (`ws.length` returns, `ws.length + 1` invocations, the last one in
flight); the Context is only forwarded, as it is, to every `Start` call. -/
theorem supervisor_ignores_cancellation (o : Options) (ws : List (Watcher T)) (c : Cache T)
    (hc : o.Context.cancelled = true) :
    (supervisor o ws { cache := c, trace := [] }).trace.countP Event.isStartReturned =
        ws.length ∧
      (supervisor o ws { cache := c, trace := [] }).trace.countP Event.isStartCalled =
        ws.length + 1 ∧
      (∃ opts, (supervisor o ws { cache := c, trace := [] }).trace.getLast? =
        some (Event.startCalled opts)) ∧
      ∀ opts, Event.startCalled opts ∈ (supervisor o ws { cache := c, trace := [] }).trace →
        opts.Context.cancelled = true := by
  refine ⟨?_, ?_, ⟨_, supervisor_last o ws _⟩, ?_⟩
  · simpa using supervisor_count_startReturned o ws { cache := c, trace := [] }
  · simpa using supervisor_count_startCalled o ws { cache := c, trace := [] }
  · intro opts h
    rcases supervisor_startCalled_mem o ws _ opts h with h | ⟨h, _⟩
    · cases h
    · rw [h, hc]

/-- Witness of C4 amended: a cancelled Context and three returns of `Start`. -/
theorem supervisor_ignores_cancellation_witness :
    cancelledOptions.Context.cancelled = true ∧
      (supervisor cancelledOptions [failingWatcher, reloadingWatcher, failingWatcher]
          { cache := prodCache, trace := [] }).trace.countP Event.isStartCalled = 3 + 1 :=
  ⟨rfl, (supervisor_ignores_cancellation cancelledOptions
    [failingWatcher, reloadingWatcher, failingWatcher] prodCache rfl).2.1⟩

/-- C5: every watcher run begins on an empty cache. In the loop that `run`
starts on a new cache, with the watcher the only writer, the cache handed to
each `Start` invocation (the first and every restart) has no registration: no
name is found in it, so nothing of the previous run is visible. -/
theorem run_start_on_empty_cache (o : Options) (ws : List (Watcher T))
    (opts : WatcherOptions T) (h : Event.startCalled opts ∈ (runSupervisor o ws).trace) :
    opts.Cache.registry = [] ∧ ∀ name, opts.Cache.Get name = none := by
  have hreg : opts.Cache.registry = [] := by
    rcases supervisor_startCalled_mem o ws _ opts h with h | ⟨_, _, h | h⟩
    · cases h
    · rw [h]; rfl
    · exact h
  refine ⟨hreg, fun name => ?_⟩
  simp [Cache.Get, hreg]

/-- Witness of C5: the restart after a run that registered "prod" and set it
to 7. -/
theorem run_start_on_empty_cache_witness :
    Event.startCalled (watcherOptions liveOptions prodCache.Clean) ∈
        (runSupervisor liveOptions [reloadingWatcher]).trace ∧
      (watcherOptions liveOptions prodCache.Clean).Cache.Get "prod" = none :=
  ⟨by decide,
   (run_start_on_empty_cache liveOptions [reloadingWatcher]
      (watcherOptions liveOptions prodCache.Clean) (by decide)).2 "prod"⟩

/-- C6: `r := c.Register(n)` on a cache without `n` creates one registration
whose value is absent; in every case `n` then maps to `r`, a second
`Register(n)` returns the same handle and leaves the cache as it is (no second
slot, the stored value is not reset), and after `r.Set(v)` a lookup of `n`
finds `r` and its `Get` returns `v`. -/
theorem register_set_get (c c1 : Cache T) (n : String) (v : T) (r : RegistrationHandle)
    (hwf : c.WF) (hreg : c.Register n = (c1, r)) :
    (c.Get n = none → r.Get c1 = none ∧ c1.store.length = c.store.length + 1) ∧
      c1.Get n = some r ∧
      c1.Register n = (c1, r) ∧
      (r.Set v c1).Get n = some r ∧
      r.Get (r.Set v c1) = some v ∧
      (r.Set v c1).Register n = (r.Set v c1, r) ∧
      r.Get ((r.Set v c1).Register n).1 = some v := by
  have hget : c1.Get n = some r := by
    unfold Cache.Register at hreg
    cases hg : c.Get n with
    | some r0 =>
      simp only [hg, Prod.mk.injEq] at hreg
      rw [← hreg.1, ← hreg.2]
      exact hg
    | none =>
      simp only [hg, Prod.mk.injEq] at hreg
      rw [← hreg.1, ← hreg.2]
      simp [Cache.Get, List.lookup]
  have hslot : r.slot < c1.store.length := by
    have hwf1 : c1.WF := by
      have := Cache.wf_register c n hwf
      rwa [hreg] at this
    exact hwf1 _ (Cache.get_mem hget)
  have hval : r.Get (r.Set v c1) = some v := RegistrationHandle.get_set_self c1 r v hslot
  have hget2 : (r.Set v c1).Get n = some r := by rw [Cache.get_set]; exact hget
  refine ⟨?_, hget, Cache.register_of_get hget, hget2, hval, Cache.register_of_get hget2, ?_⟩
  · intro hg
    unfold Cache.Register at hreg
    simp only [hg, Prod.mk.injEq] at hreg
    rw [← hreg.1, ← hreg.2]
    simp [RegistrationHandle.Get]
  · rw [Cache.register_of_get hget2]
    exact hval

/-- Witness of C6: "test-data" registered on a new cache, then set to 3. -/
theorem register_set_get_witness :
    ((NewCache : Cache Nat).Register "test-data").1.Get "test-data" = some { slot := 0 } ∧
      ({ slot := 0 } : RegistrationHandle).Get
        (({ slot := 0 } : RegistrationHandle).Set 3
          ((NewCache : Cache Nat).Register "test-data").1) = some 3 :=
  have h := register_set_get (NewCache : Cache Nat)
    ((NewCache : Cache Nat).Register "test-data").1 "test-data" 3 { slot := 0 }
    Cache.wf_newCache rfl
  ⟨h.2.1, h.2.2.2.2.1⟩

/-- C7: a query of a populated source with owner filter `x` succeeds and
returns exactly the entries of the cached list whose owner is `x`: a sublist of
the cached list (same relative order, nothing added), every entry of it owned
by `x`, every entry owned by `x` as often as in the cached list (nothing
dropped or duplicated); when no entry is owned by `x` it is the empty list, an
answer, not "not yet populated". -/
theorem query_owner_filter (c : Cache (List InventoryEntry)) (sourceName x : String)
    (r : RegistrationHandle) (items : List InventoryEntry)
    (hget : c.Get sourceName = some r) (hval : r.Get c = some items) :
    ∃ res, Query c sourceName (some x) = .ok res ∧
      res = items.filter (fun e => decide (e.owner = x)) ∧
      res.Sublist items ∧
      (∀ e ∈ res, e.owner = x) ∧
      (∀ e ∈ items, e.owner = x → e ∈ res) ∧
      (∀ e, e.owner = x → res.count e = items.count e) ∧
      ((∀ e ∈ items, e.owner ≠ x) → res = []) := by
  refine ⟨items.filter (fun e => decide (e.owner = x)), ?_, rfl, List.filter_sublist _, ?_, ?_,
    ?_, ?_⟩
  · simp only [Query, hget, hval]
    rfl
  · intro e he
    simpa using (List.mem_filter.mp he).2
  · intro e he hx
    exact List.mem_filter.mpr ⟨he, by simpa using hx⟩
  · intro e hx
    exact List.count_filter (by simpa using hx)
  · intro h
    rw [List.filter_eq_nil_iff]
    intro e he
    simpa using h e he

/-- Witness of C7: the scenario of the spec, owners "a", "a", "b" filtered by
"a". -/
theorem query_owner_filter_witness :
    ∃ res, Query scenarioCache "prod" (some "a") = .ok res ∧
      res = [{ name := "s1", owner := "a", age := 1 }, { name := "s2", owner := "a", age := 2 }] :=
  have h := query_owner_filter scenarioCache "prod" "a" { slot := 0 }
    [{ name := "s1", owner := "a", age := 1 },
     { name := "s2", owner := "a", age := 2 },
     { name := "s3", owner := "b", age := 3 }] (by decide) (by decide)
  h.imp fun _ hres => ⟨hres.1, hres.2.1.trans (by decide)⟩

/-- C10: `run` fails exactly when the socket cannot be created or `Serve`
fails. When `NewSocket` returns an error, `run` returns that error; by then it
has made the cache and started the supervisor goroutine on it, and it builds no
server and calls no `Serve`. Otherwise `run` makes the gRPC server, builds the
agent server on the very cache the goroutine was started on, registers it,
and returns what `Serve` returns. That one cache is what every watcher run is
handed: the first `Start` call gets it as `NewCache` made it, every later one
as the run before and the `Clean` after it left it. -/
theorem run_result (env : RunEnv) (o : Options) (gardenerCache : CacheRef)
    (ws : List (Watcher T)) :
    (∀ err, env.NewSocket o.socketNetwork o.socketAddress = .error err →
        (run env o gardenerCache).1 = some err ∧
        (run env o gardenerCache).2 =
          [.log (.info "starting gardeners agent"),
           .newCache gardenerCache,
           .goSupervisor o gardenerCache,
           .log (.debug "configuring grpc server"),
           .newSocket o.socketNetwork o.socketAddress]) ∧
      (∀ lis, env.NewSocket o.socketNetwork o.socketAddress = .ok lis →
        (run env o gardenerCache).1 = env.Serve lis ∧
        (run env o gardenerCache).2 =
          [.log (.info "starting gardeners agent"),
           .newCache gardenerCache,
           .goSupervisor o gardenerCache,
           .log (.debug "configuring grpc server"),
           .newSocket o.socketNetwork o.socketAddress,
           .newGrpcServer,
           .newAgentServer gardenerCache,
           .registerAgentServer,
           .log (.info "starting grpc server"),
           .serve lis] ∧
        (run env o gardenerCache).2.getLast? = some (.serve lis) ∧
        (run env o gardenerCache).2.count (.serve lis) = 1 ∧
        (∀ ref, RunEvent.newAgentServer ref ∈ (run env o gardenerCache).2 ↔
          ref = gardenerCache) ∧
        ∀ o1 ref, RunEvent.goSupervisor o1 ref ∈ (run env o gardenerCache).2 ↔
          (o1 = o ∧ ref = gardenerCache)) ∧
      ((run env o gardenerCache).1 ≠ none ↔
        (∃ err, env.NewSocket o.socketNetwork o.socketAddress = .error err) ∨
        ∃ lis, env.NewSocket o.socketNetwork o.socketAddress = .ok lis ∧
          env.Serve lis ≠ none) ∧
      (runSupervisor o ws).trace.filter Event.isStartCalled =
        (ws.scanl
          (fun c w => (w { Context := o.Context, Cache := c, ConfigPath := o.configPath }).1.Clean)
          NewCache).map
          (fun c => Event.startCalled
            { Context := o.Context, Cache := c, ConfigPath := o.configPath }) ∧
      ∃ opts, (runSupervisor o ws).trace.getLast? = some (Event.startCalled opts) ∧
        opts.Cache = (runSupervisor o ws).cache := by
  have hsup : (runSupervisor o ws).trace.filter Event.isStartCalled =
      (ws.scanl
        (fun c w => (w { Context := o.Context, Cache := c, ConfigPath := o.configPath }).1.Clean)
        NewCache).map
        (fun c => Event.startCalled
          { Context := o.Context, Cache := c, ConfigPath := o.configPath }) := by
    have hgen : ∀ (ws : List (Watcher T)) (s : World T),
        (supervisor o ws s).trace.filter Event.isStartCalled =
          s.trace.filter Event.isStartCalled ++
            (ws.scanl
              (fun c w =>
                (w { Context := o.Context, Cache := c, ConfigPath := o.configPath }).1.Clean)
              s.cache).map
              (fun c => Event.startCalled
                { Context := o.Context, Cache := c, ConfigPath := o.configPath }) := by
      intro ws
      induction ws with
      | nil =>
        intro s
        simp [supervisor, beginStart_trace, Event.isStartCalled, watcherOptions]
      | cons w ws ih =>
        intro s
        rw [supervisor, ih, startWatcher_trace, startWatcher_cache]
        cases (w (watcherOptions o s.cache)).2 <;>
          simp [List.filter_cons, Event.isStartCalled, watcherOptions]
    simpa [runSupervisor] using hgen ws { cache := NewCache, trace := [] }
  have hlast : ∃ opts, (runSupervisor o ws).trace.getLast? = some (Event.startCalled opts) ∧
      opts.Cache = (runSupervisor o ws).cache :=
    ⟨_, supervisor_last o ws _, rfl⟩
  cases hs : env.NewSocket o.socketNetwork o.socketAddress with
  | error e =>
    refine ⟨?_, ?_, ?_, hsup, hlast⟩
    · intro err herr
      cases herr
      simp [run, hs]
    · intro lis hlis
      cases hlis
    · simp [run, hs]
  | ok l =>
    refine ⟨?_, ?_, ?_, hsup, hlast⟩
    · intro err herr
      cases herr
    · intro lis hlis
      cases hlis
      refine ⟨by simp [run, hs], by simp [run, hs], by simp [run, hs], ?_, ?_, ?_⟩
      · simp [run, hs, List.count_cons, List.count_append]
      · intro ref
        simp [run, hs, eq_comm]
      · intro o1 ref
        simp [run, hs, eq_comm]
    · simp [run, hs]

/-- Witness of C10: a socket that cannot be created, a server whose `Serve`
returns an error, and the caches handed to `Start` around a run that
registered "prod" and set it to 7. -/
theorem run_result_witness :
    (run brokenSocketEnv liveOptions 0).1 = some "listen failed" ∧
      (run servingEnv liveOptions 0).1 = some "server stopped" ∧
      (runSupervisor liveOptions [reloadingWatcher]).trace.filter Event.isStartCalled =
        [Event.startCalled
           { Context := { cancelled := false },
             Cache := { store := [], registry := [] },
             ConfigPath := "config.yaml" },
         Event.startCalled
           { Context := { cancelled := false },
             Cache := { store := [{ value := some 7 }], registry := [] },
             ConfigPath := "config.yaml" }] :=
  ⟨((run_result brokenSocketEnv liveOptions 0 ([] : List (Watcher Nat))).1
      "listen failed" rfl).1,
   ((run_result servingEnv liveOptions 0 ([] : List (Watcher Nat))).2.1
      { network := "unix", address := "/tmp/agent.sock" } rfl).1,
   (run_result servingEnv liveOptions 0 [reloadingWatcher]).2.2.2.1.trans (by decide)⟩

end Claims

end CloudAgent
